import Mathlib

-- Shallow embedding of the J2Lab Jira-to-GitLab migration core:
-- internal/j2g/epic.go (ConvertJiraIssueToGitLabEpic) and
-- internal/config/jira.go (GetJiraClient).
--
-- Go errors are modelled as `Option String` (none = nil) or `Except String`;
-- the three errgroup fan-out phases of the source run all submitted tasks and
-- surface the first error, which a sequential fold over the task list models
-- (within a phase only the aggregate barrier is observable).  Remote calls
-- issued by the converter are recorded in an explicit trace.

namespace J2Lab

/-- GitLab attachment record produced by convertJiraAttachmentToMarkdown and,
after URL rewriting, stored in the shared `attachments` map (j2g.Attachment). -/
structure Attachment where
  markdown : String
  name : String
  createdAt : String
deriving DecidableEq

/-- Value of an entry of jira.Issue.Fields.Unknowns: the source only cares
whether the Go interface value is a string (type assertion `.(string)`). -/
inductive UnknownValue where
  | str (s : String)
  | nonString
deriving DecidableEq

/-- Jira attachment as consumed by the converter (only its ID is read
directly; content handling is inside convertJiraAttachmentToMarkdown). -/
structure JiraAttachment where
  id : String
deriving DecidableEq

/-- Jira comment as consumed by the converter (its body is only read inside
formatNote, which is modelled as an external collaborator). -/
structure JiraComment where
  id : String
deriving DecidableEq

/-- The fields of jira.Issue read by ConvertJiraIssueToGitLabEpic.
`duedate = ""` models the zero jira.Date value. -/
structure JiraIssue where
  key : String
  summary : String
  created : String
  duedate : String
  resolution : Option String
  unknowns : List (String × UnknownValue)
  attachments : List JiraAttachment
  comments : List JiraComment
deriving DecidableEq

/-- The configuration fields read by the converter. -/
structure Config where
  gitlabHost : String
  projectGitLabEpic : String
  projectGitLabIssue : String
  epicStartDate : String
deriving DecidableEq

/-- A calendar date as produced by time.Parse("2006-01-02", s). -/
structure Date where
  year : Nat
  month : Nat
  day : Nat
deriving DecidableEq

/-- The gitlabx.CreateEpicOptions payload built by the converter. -/
structure CreateEpicOptions where
  title : String
  color : String
  createdAt : String
  labels : List String
  description : Option String
  startDateIsFixed : Option Bool
  startDateFixed : Option Date
  dueDateIsFixed : Option Bool
  dueDateFixed : String
deriving DecidableEq

/-- The created GitLab epic (internal ID and project-visible IID). -/
structure Epic where
  id : Nat
  iid : Nat
deriving DecidableEq

/-- Remote write calls issued by the converter, in order. -/
inductive Call where
  | createEpic (gid : String) (opts : CreateEpicOptions)
  | createEpicNote (gid : String) (epicId : Nat) (body : String)
  | updateEpic (gid : String) (epicIid : Nat) (stateEvent : String)
deriving DecidableEq

/-- External collaborators of the converter: repository functions outside
internal/j2g/epic.go (convertJiraToGitLabLabels, convertJiraAttachmentToMarkdown,
formatDescription, formatNote, utils.RandomColor) and the GitLab API calls
(gitlabx.CreateEpic, Notes.CreateEpicNote), each specialised to the issue and
user map of the run.  Formatters are pure (they issue no remote writes). -/
structure Env where
  convertLabels : Except String (List String)
  convertAttachment : String → Except String Attachment
  formatDescription : List (String × Attachment) → Except String String
  createEpic : CreateEpicOptions → Except String Epic
  formatNote : String → List (String × Attachment) → Except String String
  createEpicNote : Nat → String → Option String
  randomColor : String

/-- The shared attachments map (Go map[string]*Attachment), as an association
list in insertion order. -/
abbrev AttachmentMap := List (String × Attachment)

/-- Association-list lookup with Go map semantics. -/
def alistLookup {α : Type} : List (String × α) → String → Option α
  | [], _ => none
  | (k, v) :: rest, key => if k = key then some v else alistLookup rest key

/-- Go map assignment `m[k] = v`: overwrite in place or append. -/
def insertAtt : AttachmentMap → String → Attachment → AttachmentMap
  | [], k, v => [(k, v)]
  | (k', v') :: rest, k, v =>
      if k' = k then (k, v) :: rest else (k', v') :: insertAtt rest k v

/-- pkg/errors.Wrap: wrapping a nil error yields nil. -/
def errorsWrap : Option String → String → Option String
  | none, _ => none
  | some e, msg => some (msg ++ ": " ++ e)

/-- errgroup.Wait keeps the first error; later errors are discarded. -/
def firstErr : Option String → Option String → Option String
  | some e, _ => some e
  | none, e => e

-- Model of the Go regexp `!\[(.+)\]\((.+)\)` with FindStringSubmatch:
-- leftmost match, greedy `.+` with backtracking, `.` excluding newline.

/-- Greedy match of the trailing `(.+)\)` part: the URL runs to the last
closing parenthesis that is preceded only by non-newline characters, and must
be nonempty.  `acc` holds the reversed characters read so far. -/
def urlCandidates : List Char → List Char → Option (List Char)
  | [], _ => none
  | c :: rest, acc =>
      if c = '\n' then none
      else
        match urlCandidates rest (c :: acc) with
        | some u => some u
        | none => if c = ')' then (if acc.isEmpty then none else some acc.reverse) else none

/-- Greedy match of `(.+)\]\((.+)\)` after the literal `![`: the alt text is
the longest nonempty newline-free prefix followed by `](` such that the rest
still matches `(.+)\)`. -/
def altSearch : List Char → List Char → Option (List Char × List Char)
  | [], _ => none
  | c :: rest, acc =>
      match (if c = '\n' then none else altSearch rest (c :: acc)) with
      | some r => some r
      | none =>
        if acc.isEmpty then none
        else if c = ']' then
          match rest with
          | '(' :: rest2 =>
            match urlCandidates rest2 [] with
            | some url => some (acc.reverse, url)
            | none => none
          | _ => none
        else none

/-- Leftmost occurrence of the pattern `!\[(.+)\]\((.+)\)`. -/
def findMarkup : List Char → Option (String × String)
  | [] => none
  | c :: rest =>
      match (if c = '!' then
               match rest with
               | '[' :: rest2 =>
                 match altSearch rest2 [] with
                 | some (alt, url) => some (String.mk alt, String.mk url)
                 | none => none
               | _ => none
             else none) with
      | some r => some r
      | none => findMarkup rest

/-- regexp.FindStringSubmatch on `!\[(.+)\]\((.+)\)`: `none` models the
nil result (len(matches) = 0), `some` the three-element result
(full match plus exactly two capture groups). -/
def findStringSubmatch (s : String) : Option (String × String) :=
  findMarkup s.data

/-- Numeric value of a decimal digit character. -/
def digitVal (c : Char) : Nat := c.toNat - 48

/-- Gregorian leap-year rule used by Go's time package. -/
def isLeapYear (y : Nat) : Bool :=
  (y % 4 == 0 && y % 100 != 0) || y % 400 == 0

/-- Length of a month, matching Go's time package day-range check. -/
def daysInMonth (y m : Nat) : Nat :=
  if m = 2 then (if isLeapYear y then 29 else 28)
  else if m = 4 ∨ m = 6 ∨ m = 9 ∨ m = 11 then 30
  else 31

/-- time.Parse("2006-01-02", s): exactly four year digits, two month digits,
two day digits separated by dashes, with in-range month and day. -/
def timeParseDateOnly (s : String) : Option Date :=
  match s.data with
  | [y1, y2, y3, y4, s1, m1, m2, s2, d1, d2] =>
    if y1.isDigit && y2.isDigit && y3.isDigit && y4.isDigit && s1 == '-'
        && m1.isDigit && m2.isDigit && s2 == '-' && d1.isDigit && d2.isDigit then
      let year := digitVal y1 * 1000 + digitVal y2 * 100 + digitVal y3 * 10 + digitVal y4
      let month := digitVal m1 * 10 + digitVal m2
      let day := digitVal d1 * 10 + digitVal d2
      if 1 ≤ month ∧ month ≤ 12 ∧ 1 ≤ day ∧ day ≤ daysInMonth year month then
        some { year := year, month := month, day := day }
      else none
    else none
  | _ => none

/-- One attachment-relocation task of the first errgroup phase.  In the
source, after a successful convertJiraAttachmentToMarkdown the Go variable
`err` is nil, so the `len(matches) != 3` branch returns
errors.Wrap(err, "Error parsing markdown") = errors.Wrap(nil, ...) = nil:
the task reports no error and the attachment is silently dropped. -/
def attachmentTask (cfg : Config) (env : Env) (att : JiraAttachment)
    (attachments : AttachmentMap) : AttachmentMap × Option String :=
  match env.convertAttachment att.id with
  | .error e =>
      (attachments, errorsWrap (some e) "Error converting Jira attachment to GitLab attachment")
  | .ok attachment =>
    match findStringSubmatch attachment.markdown with
    | none => (attachments, errorsWrap none "Error parsing markdown")
    | some (alt, url) =>
      let absUrl := cfg.gitlabHost ++ "/" ++ cfg.projectGitLabIssue ++ "/" ++ url
      (insertAtt attachments att.id
        { markdown := "![" ++ alt ++ "](" ++ absUrl ++ ")"
        , name := attachment.name
        , createdAt := attachment.createdAt }, none)

/-- The attachment errgroup phase: all tasks run (errgroup without a context
cancels nothing), the map accumulates their inserts, Wait yields the first
error. -/
def runAttachmentTasks (cfg : Config) (env : Env) :
    List JiraAttachment → AttachmentMap → AttachmentMap × Option String
  | [], m => (m, none)
  | a :: rest, m =>
    let r := attachmentTask cfg env a m
    let later := runAttachmentTasks cfg env rest r.1
    (later.1, firstErr r.2 later.2)

/-- Attachment phase started on the empty map. -/
def runAttachmentPhase (cfg : Config) (env : Env) (atts : List JiraAttachment) :
    AttachmentMap × Option String :=
  runAttachmentTasks cfg env atts []

/-- One comment task of the second errgroup phase: format the note body and
post it; a post that was issued is recorded in the calls even when it fails. -/
def commentTask (cfg : Config) (env : Env) (epic : Epic) (m : AttachmentMap)
    (c : JiraComment) : List Call × Option String :=
  match env.formatNote c.id m with
  | .error e => ([], errorsWrap (some e) "Error formatting comment")
  | .ok body =>
    match env.createEpicNote epic.id body with
    | some e =>
        ([Call.createEpicNote cfg.projectGitLabEpic epic.id body],
         errorsWrap (some e) "Error creating note")
    | none => ([Call.createEpicNote cfg.projectGitLabEpic epic.id body], none)

/-- The comment errgroup phase over the issue's comments. -/
def runCommentTasks (cfg : Config) (env : Env) (epic : Epic) (m : AttachmentMap) :
    List JiraComment → List Call × Option String
  | [] => ([], none)
  | c :: rest =>
    let r := commentTask cfg env epic m c
    let later := runCommentTasks cfg env epic m rest
    (r.1 ++ later.1, firstErr r.2 later.2)

/-- Comment phase (Comment -> Comment section of the source). -/
def runCommentPhase (cfg : Config) (env : Env) (issue : JiraIssue) (epic : Epic)
    (m : AttachmentMap) : List Call × Option String :=
  runCommentTasks cfg env epic m issue.comments

/-- usedAttachment as in the source: `make(map[string]bool)` created before
the attachment loop and never written anywhere afterwards. -/
def usedAttachmentInit : List (String × Bool) := []

/-- The skip test of the orphan loop:
`if used, ok := usedAttachment[id]; ok || used`. -/
def usedAttachmentCheck (usedAttachment : List (String × Bool)) (id : String) : Bool :=
  let used := (alistLookup usedAttachment id).getD false
  let ok := (alistLookup usedAttachment id).isSome
  ok || used

/-- One orphan-attachment task: post the relocated markup as a standalone
epic note. -/
def orphanTask (cfg : Config) (env : Env) (epic : Epic) (p : String × Attachment) :
    List Call × Option String :=
  match env.createEpicNote epic.id p.2.markdown with
  | some e =>
      ([Call.createEpicNote cfg.projectGitLabEpic epic.id p.2.markdown],
       errorsWrap (some e) "Error creating note")
  | none => ([Call.createEpicNote cfg.projectGitLabEpic epic.id p.2.markdown], none)

/-- The orphan errgroup phase (Remain Attachment -> Comment in the source):
every map entry not marked used is posted. -/
def runOrphanTasks (cfg : Config) (env : Env) (epic : Epic)
    (usedAttachment : List (String × Bool)) : AttachmentMap → List Call × Option String
  | [] => ([], none)
  | p :: rest =>
    if usedAttachmentCheck usedAttachment p.1 then
      runOrphanTasks cfg env epic usedAttachment rest
    else
      let r := orphanTask cfg env epic p
      let later := runOrphanTasks cfg env epic usedAttachment rest
      (r.1 ++ later.1, firstErr r.2 later.2)

/-- Orphan phase run with the (never populated) used-attachment set. -/
def runOrphanPhase (cfg : Config) (env : Env) (epic : Epic) (m : AttachmentMap) :
    List Call × Option String :=
  runOrphanTasks cfg env epic usedAttachmentInit m

/-- The StartDate block: a configured custom field whose value is a string
must parse as 2006-01-02 (failure is fatal); an absent field or a non-string
value only logs a warning. -/
def convertStartDate (cfg : Config) (issue : JiraIssue) : Except String (Option Date) :=
  if cfg.epicStartDate ≠ "" then
    match alistLookup issue.unknowns cfg.epicStartDate with
    | some (UnknownValue.str startDateStr) =>
      match timeParseDateOnly startDateStr with
      | none => .error ("Error parsing time: " ++ startDateStr)
      | some startDate => .ok (some startDate)
    | _ => .ok none
  else .ok none

/-- The gitlabx.CreateEpicOptions value at the moment of the CreateEpic call:
the literal initialisation plus the Description, StartDate and DueDate
assignments of the source. -/
def buildCreateEpicOptions (env : Env) (issue : JiraIssue) (labels : List String)
    (description : String) (startDate : Option Date) : CreateEpicOptions :=
  { title := issue.summary
  , color := env.randomColor
  , createdAt := issue.created
  , labels := labels
  , description := some description
  , startDateIsFixed := match startDate with | some _ => some true | none => none
  , startDateFixed := startDate
  , dueDateIsFixed := if issue.duedate = "" then none else some true
  , dueDateFixed := issue.duedate }

/-- ConvertJiraIssueToGitLabEpic from internal/j2g/epic.go.  Returns the Go
result (epic or first wrapped error) together with the trace of remote write
calls issued.  `updateEpicErr` is the error returned by the final
gl.Epics.UpdateEpic call; the source discards both of UpdateEpic's return
values, which the model mirrors by binding and dropping it. -/
def ConvertJiraIssueToGitLabEpic (cfg : Config) (env : Env)
    (updateEpicErr : Option String) (issue : JiraIssue) :
    Except String Epic × List Call :=
  match env.convertLabels with
  | .error e => (.error ("Error converting Jira labels to GitLab labels: " ++ e), [])
  | .ok labels =>
    match (runAttachmentPhase cfg env issue.attachments).2 with
    | some e => (.error ("Error converting Jira attachment to GitLab attachment: " ++ e), [])
    | none =>
      match env.formatDescription (runAttachmentPhase cfg env issue.attachments).1 with
      | .error e => (.error ("Error formatting description: " ++ e), [])
      | .ok description =>
        match convertStartDate cfg issue with
        | .error e => (.error e, [])
        | .ok startDate =>
          match env.createEpic (buildCreateEpicOptions env issue labels description startDate) with
          | .error e =>
              (.error ("Error creating GitLab epic: " ++ e),
               [Call.createEpic cfg.projectGitLabEpic
                 (buildCreateEpicOptions env issue labels description startDate)])
          | .ok epic =>
            match (runCommentPhase cfg env issue epic (runAttachmentPhase cfg env issue.attachments).1).2 with
            | some e =>
                (.error ("Error creating GitLab comment: " ++ e),
                 Call.createEpic cfg.projectGitLabEpic
                     (buildCreateEpicOptions env issue labels description startDate)
                   :: (runCommentPhase cfg env issue epic (runAttachmentPhase cfg env issue.attachments).1).1)
            | none =>
              match (runOrphanPhase cfg env epic (runAttachmentPhase cfg env issue.attachments).1).2 with
              | some e =>
                  (.error ("Error creating GitLab issue: " ++ e),
                   Call.createEpic cfg.projectGitLabEpic
                       (buildCreateEpicOptions env issue labels description startDate)
                     :: (runCommentPhase cfg env issue epic (runAttachmentPhase cfg env issue.attachments).1).1
                     ++ (runOrphanPhase cfg env epic (runAttachmentPhase cfg env issue.attachments).1).1)
              | none =>
                if issue.resolution.isSome then
                  let _discardedUpdateErr := updateEpicErr
                  (.ok epic,
                   (Call.createEpic cfg.projectGitLabEpic
                        (buildCreateEpicOptions env issue labels description startDate)
                      :: (runCommentPhase cfg env issue epic (runAttachmentPhase cfg env issue.attachments).1).1
                      ++ (runOrphanPhase cfg env epic (runAttachmentPhase cfg env issue.attachments).1).1)
                     ++ [Call.updateEpic cfg.projectGitLabEpic epic.iid "close"])
                else
                  (.ok epic,
                   (Call.createEpic cfg.projectGitLabEpic
                        (buildCreateEpicOptions env issue labels description startDate)
                      :: (runCommentPhase cfg env issue epic (runAttachmentPhase cfg env issue.attachments).1).1
                      ++ (runOrphanPhase cfg env epic (runAttachmentPhase cfg env issue.attachments).1).1)
                     ++ [])

/-- Observable state of the created epic after the run: closed exactly when a
close state-event call was issued and the remote update succeeded. -/
inductive EpicState where
  | opened
  | closed
deriving DecidableEq

/-- Interpretation of the remote server applying the recorded calls. -/
def finalEpicState (updateEpicErr : Option String) (gid : String) (iid : Nat)
    (trace : List Call) : EpicState :=
  if Call.updateEpic gid iid "close" ∈ trace ∧ updateEpicErr = none then
    EpicState.closed
  else EpicState.opened

/-- Boolean test for target-entity creation calls. -/
def isCreateEpicCall : Call → Bool
  | .createEpic _ _ => true
  | _ => false

/-- Boolean test for note-creation calls. -/
def isNoteCall : Call → Bool
  | .createEpicNote _ _ _ => true
  | _ => false

-- Model of internal/config/jira.go.

/-- The configuration consumed by GetJiraClient. -/
structure JiraConfig where
  host : String
  token : String
deriving DecidableEq

/-- The Jira client handle. -/
structure JiraClient where
  baseURL : String
deriving DecidableEq

/-- The current user returned by client.User.GetSelf. -/
structure JiraUser where
  emailAddress : String
deriving DecidableEq

/-- External collaborators of GetJiraClient: jira.NewClient (with the bearer
transport built from the config token) and User.GetSelf. -/
structure JiraEnv where
  newClient : JiraConfig → Except String JiraClient
  getSelf : JiraClient → Except String JiraUser

/-- GetJiraClient from internal/config/jira.go.  The package-level cached
client is passed in and returned as explicit state (`none` = nil).  The two
log.Fatalf exits of the source never return, which `.error` models. -/
def GetJiraClient (env : JiraEnv) (jiraConfig : JiraConfig)
    (jiraClient : Option JiraClient) :
    Except String (JiraClient × Option JiraClient) :=
  match jiraClient with
  | some client => .ok (client, some client)
  | none =>
    match env.newClient jiraConfig with
    | .error e => .error ("Error creating Jira client: " ++ e)
    | .ok client =>
      match env.getSelf client with
      | .error _ => .error "Error getting current user for Jira"
      | .ok _ => .ok (client, some client)

-- Concrete run used by counterexamples and witnesses.

/-- Example configuration. -/
def exCfg : Config :=
  { gitlabHost := "https://gitlab.example.com"
  , projectGitLabEpic := "grp/epics"
  , projectGitLabIssue := "grp/issues"
  , epicStartDate := "" }

/-- Example upload result of convertJiraAttachmentToMarkdown. -/
def exUpload : Attachment :=
  { markdown := "![screenshot](uploads/1.png)", name := "1.png", createdAt := "2023-01-01" }

/-- The markup of exUpload after URL rewriting under exCfg. -/
def relocatedMarkup : String :=
  "![screenshot](https://gitlab.example.com/grp/issues/uploads/1.png)"

/-- Example created epic. -/
def exEpic : Epic := { id := 7, iid := 3 }

/-- Example collaborators: one attachment uploads as exUpload, the formatter
embeds attachment a1 inline by returning its relocated markup verbatim as the
whole description, every note post succeeds. -/
def exEnv : Env :=
  { convertLabels := .ok ["jira-import"]
  , convertAttachment := fun _ => .ok exUpload
  , formatDescription := fun m =>
      .ok (Option.getD ((alistLookup m "a1").map Attachment.markdown) "no description")
  , createEpic := fun _ => .ok exEpic
  , formatNote := fun cid _ => .ok ("note-" ++ cid)
  , createEpicNote := fun _ _ => none
  , randomColor := "#aabbcc" }

/-- Example issue: one attachment a1, no comments, no resolution. -/
def c1Issue : JiraIssue :=
  { key := "PROJ-1"
  , summary := "Fix bug"
  , created := "2023-01-01T00:00:00Z"
  , duedate := ""
  , resolution := none
  , unknowns := []
  , attachments := [⟨"a1"⟩]
  , comments := [] }

/-- Collaborators for the malformed-markup run: the upload response does not
match the embed pattern. -/
def c2Env : Env :=
  { exEnv with convertAttachment :=
      fun _ => Except.ok ⟨"attachment-1.png uploaded", "1.png", "t"⟩ }

/-- Issue for the malformed-markup run. -/
def c2Issue : JiraIssue := { c1Issue with key := "PROJ-2" }

/-- Collaborators for the failing-relocation run. -/
def c4Env : Env :=
  { exEnv with convertAttachment := fun _ => .error "disk full" }

/-- Issue with no attachments and no comments. -/
def c6Issue : JiraIssue := { c1Issue with key := "PROJ-6", attachments := [] }

/-- Issue with a resolution present. -/
def c7Issue : JiraIssue := { c1Issue with key := "PROJ-7", resolution := some "Done" }

/-- Configuration with the epic-start-date custom field set. -/
def c8Cfg : Config := { exCfg with epicStartDate := "customfield_10011" }

/-- Issue whose configured start-date field holds an unparsable string. -/
def c8Issue : JiraIssue :=
  { c1Issue with
      key := "PROJ-8",
      attachments := [],
      unknowns := [("customfield_10011", UnknownValue.str "not-a-date")] }

/-- Issue whose configured start-date field is absent. -/
def c8IssueAbsent : JiraIssue :=
  { c1Issue with key := "PROJ-8b", attachments := [], unknowns := [] }

/-- Example Jira collaborators for GetJiraClient. -/
def exJiraEnv : JiraEnv :=
  { newClient := fun cfg => .ok { baseURL := cfg.host }
  , getSelf := fun _ => .ok { emailAddress := "user@example.com" } }

example : findStringSubmatch "![screenshot](uploads/1.png)" = some ("screenshot", "uploads/1.png") := by
  decide

example : findStringSubmatch "attachment-1.png uploaded" = none := by decide

example : findStringSubmatch "x ![a]](b c) y" = some ("a]", "b c") := by decide

example : timeParseDateOnly "2023-01-02" = some ⟨2023, 1, 2⟩ := by decide

example : timeParseDateOnly "not-a-date" = none := by decide

example : timeParseDateOnly "2023-02-30" = none := by decide

-- Helper lemmas.

/-- Looking up the key just written finds the new value. -/
theorem alistLookup_insertAtt_self (m : AttachmentMap) (k : String) (v : Attachment) :
    alistLookup (insertAtt m k v) k = some v := by
  induction m with
  | nil => simp [insertAtt, alistLookup]
  | cons p rest ih =>
    obtain ⟨k', v'⟩ := p
    by_cases h : k' = k
    · simp [insertAtt, h, alistLookup]
    · simp [insertAtt, h, alistLookup, ih]

/-- The empty used-attachment set marks nothing as used. -/
theorem usedAttachmentCheck_init_false (id : String) :
    usedAttachmentCheck usedAttachmentInit id = false := rfl

/-- An orphan task always issues exactly the one note call for its markup,
whether or not the remote post succeeds. -/
theorem orphanTask_calls (cfg : Config) (env : Env) (epic : Epic) (p : String × Attachment) :
    (orphanTask cfg env epic p).1
      = [Call.createEpicNote cfg.projectGitLabEpic epic.id p.2.markdown] := by
  cases henv : env.createEpicNote epic.id p.2.markdown <;> simp [orphanTask, henv]

/-- With the never-populated used set, the orphan phase posts one note per
relocated attachment, in map order, with no filtering. -/
theorem runOrphanPhase_calls (cfg : Config) (env : Env) (epic : Epic) (m : AttachmentMap) :
    (runOrphanPhase cfg env epic m).1
      = m.map (fun p => Call.createEpicNote cfg.projectGitLabEpic epic.id p.2.markdown) := by
  unfold runOrphanPhase
  induction m with
  | nil => rfl
  | cons p rest ih =>
    simp only [runOrphanTasks, usedAttachmentCheck_init_false, Bool.false_eq_true,
      if_false, orphanTask_calls, ih, List.map]
    rfl

/-- Every call issued by a comment task is a note-creation call. -/
theorem commentTask_calls_are_notes (cfg : Config) (env : Env) (epic : Epic)
    (m : AttachmentMap) (c : JiraComment) :
    ∀ call ∈ (commentTask cfg env epic m c).1, isNoteCall call = true := by
  intro call hcall
  cases h1 : env.formatNote c.id m with
  | error e => simp [commentTask, h1] at hcall
  | ok body =>
    cases h2 : env.createEpicNote epic.id body with
    | none =>
      simp [commentTask, h1, h2] at hcall
      subst hcall; rfl
    | some e =>
      simp [commentTask, h1, h2] at hcall
      subst hcall; rfl

/-- Every call issued by the comment phase is a note-creation call. -/
theorem runCommentTasks_calls_are_notes (cfg : Config) (env : Env) (epic : Epic)
    (m : AttachmentMap) :
    ∀ cs : List JiraComment, ∀ call ∈ (runCommentTasks cfg env epic m cs).1,
      isNoteCall call = true := by
  intro cs
  induction cs with
  | nil => intro call hcall; simp [runCommentTasks] at hcall
  | cons c rest ih =>
    intro call hcall
    simp only [runCommentTasks, List.mem_append] at hcall
    rcases hcall with hmem | hmem
    · exact commentTask_calls_are_notes cfg env epic m c call hmem
    · exact ih call hmem

/-- A relocation task whose upload fails reports a (non-nil) error. -/
theorem attachmentTask_error (cfg : Config) (env : Env) (a : JiraAttachment)
    (m : AttachmentMap) (e : String) (he : env.convertAttachment a.id = .error e) :
    (attachmentTask cfg env a m).2
      = some ("Error converting Jira attachment to GitLab attachment: " ++ e) := by
  simp [attachmentTask, he, errorsWrap]

/-- If any attachment in the list has a failing upload, the whole attachment
phase reports an error. -/
theorem runAttachmentTasks_error_of_mem (cfg : Config) (env : Env) (a : JiraAttachment)
    (e : String) (he : env.convertAttachment a.id = .error e) :
    ∀ atts : List JiraAttachment, ∀ m : AttachmentMap, a ∈ atts →
      ((runAttachmentTasks cfg env atts m).2).isSome = true := by
  intro atts
  induction atts with
  | nil => intro m ha; cases ha
  | cons b rest ih =>
    intro m ha
    simp only [runAttachmentTasks]
    rcases List.mem_cons.mp ha with rfl | hmem
    · rw [attachmentTask_error cfg env a m e he]
      rfl
    · cases h1 : (attachmentTask cfg env b m).2 with
      | none => simpa [firstErr, h1] using ih (attachmentTask cfg env b m).1 hmem
      | some e1 => simp [firstErr, h1]

/-- Decomposition of a successful conversion: every stage succeeded and the
trace is the epic creation, the comment notes, the orphan notes, and the
optional close call, in that order. -/
theorem convert_ok_decomp (cfg : Config) (env : Env) (upd : Option String)
    (issue : JiraIssue) (epic : Epic)
    (h : (ConvertJiraIssueToGitLabEpic cfg env upd issue).1 = .ok epic) :
    ∃ labels description startDate,
      env.convertLabels = .ok labels
      ∧ (runAttachmentPhase cfg env issue.attachments).2 = none
      ∧ env.formatDescription (runAttachmentPhase cfg env issue.attachments).1 = .ok description
      ∧ convertStartDate cfg issue = .ok startDate
      ∧ env.createEpic (buildCreateEpicOptions env issue labels description startDate) = .ok epic
      ∧ (runCommentPhase cfg env issue epic (runAttachmentPhase cfg env issue.attachments).1).2 = none
      ∧ (runOrphanPhase cfg env epic (runAttachmentPhase cfg env issue.attachments).1).2 = none
      ∧ (ConvertJiraIssueToGitLabEpic cfg env upd issue).2
        = (Call.createEpic cfg.projectGitLabEpic
              (buildCreateEpicOptions env issue labels description startDate)
            :: (runCommentPhase cfg env issue epic (runAttachmentPhase cfg env issue.attachments).1).1
            ++ (runOrphanPhase cfg env epic (runAttachmentPhase cfg env issue.attachments).1).1)
          ++ (if issue.resolution.isSome then
                [Call.updateEpic cfg.projectGitLabEpic epic.iid "close"]
              else []) := by
  cases h1 : env.convertLabels with
  | error e => simp [ConvertJiraIssueToGitLabEpic, h1] at h
  | ok labels =>
  cases h2 : (runAttachmentPhase cfg env issue.attachments).2 with
  | some e => simp [ConvertJiraIssueToGitLabEpic, h1, h2] at h
  | none =>
  cases h3 : env.formatDescription (runAttachmentPhase cfg env issue.attachments).1 with
  | error e => simp [ConvertJiraIssueToGitLabEpic, h1, h2, h3] at h
  | ok description =>
  cases h4 : convertStartDate cfg issue with
  | error e => simp [ConvertJiraIssueToGitLabEpic, h1, h2, h3, h4] at h
  | ok startDate =>
  cases h5 : env.createEpic (buildCreateEpicOptions env issue labels description startDate) with
  | error e => simp [ConvertJiraIssueToGitLabEpic, h1, h2, h3, h4, h5] at h
  | ok epic0 =>
  cases h6 : (runCommentPhase cfg env issue epic0 (runAttachmentPhase cfg env issue.attachments).1).2 with
  | some e => simp [ConvertJiraIssueToGitLabEpic, h1, h2, h3, h4, h5, h6] at h
  | none =>
  cases h7 : (runOrphanPhase cfg env epic0 (runAttachmentPhase cfg env issue.attachments).1).2 with
  | some e => simp [ConvertJiraIssueToGitLabEpic, h1, h2, h3, h4, h5, h6, h7] at h
  | none =>
    have hepic : epic0 = epic := by
      by_cases hres : issue.resolution.isSome <;>
        simpa [ConvertJiraIssueToGitLabEpic, h1, h2, h3, h4, h5, h6, h7, hres] using h
    subst hepic
    refine ⟨labels, description, startDate, rfl, rfl, rfl, rfl, h5, h6, h7, ?_⟩
    by_cases hres : issue.resolution.isSome <;>
      simp [ConvertJiraIssueToGitLabEpic, h1, h2, h3, h4, h5, h6, h7, hres]

-- Claim theorems.

/-- C1: the claimed invariant fails on the code.  In this run the formatter
returns exactly attachment a1's relocated markup as the whole description, so
a1 is referenced inline, yet the conversion still posts that same markup as a
trailing orphan note: the used-attachment set is never populated, so an
inline-referenced attachment identifier is also posted in the orphan phase. -/
theorem c1_inline_referenced_attachment_also_posted_as_orphan :
    (ConvertJiraIssueToGitLabEpic exCfg exEnv none c1Issue).1 = .ok exEpic
    ∧ exEnv.formatDescription (runAttachmentPhase exCfg exEnv c1Issue.attachments).1
        = .ok relocatedMarkup
    ∧ Call.createEpicNote "grp/epics" 7 relocatedMarkup
        ∈ (ConvertJiraIssueToGitLabEpic exCfg exEnv none c1Issue).2 := by
  refine ⟨rfl, rfl, ?_⟩
  decide

/-- C2: the claimed abort fails on the code.  The upload response
"attachment-1.png uploaded" does not match the embed pattern, yet the
relocation task returns nil (errors.Wrap of a nil error is nil), the
attachment is silently dropped, the conversion succeeds and still issues
exactly one epic-creation call. -/
theorem c2_malformed_markup_swallowed_and_epic_still_created :
    findStringSubmatch "attachment-1.png uploaded" = none
    ∧ (attachmentTask exCfg c2Env ⟨"a1"⟩ []).2 = none
    ∧ (ConvertJiraIssueToGitLabEpic exCfg c2Env none c2Issue).1 = .ok exEpic
    ∧ ((ConvertJiraIssueToGitLabEpic exCfg c2Env none c2Issue).2.filter isCreateEpicCall).length
        = 1 := by
  exact ⟨rfl, rfl, rfl, rfl⟩

/-- C3: in every successful conversion run the orphan phase posts exactly one
standalone note per relocated attachment, with no filtering by inline usage,
and each such note appears in the run's call trace. -/
theorem c3_every_relocated_attachment_posted_as_orphan (cfg : Config) (env : Env)
    (upd : Option String) (issue : JiraIssue) (epic : Epic)
    (h : (ConvertJiraIssueToGitLabEpic cfg env upd issue).1 = .ok epic) :
    (runOrphanPhase cfg env epic (runAttachmentPhase cfg env issue.attachments).1).1
      = (runAttachmentPhase cfg env issue.attachments).1.map
          (fun p => Call.createEpicNote cfg.projectGitLabEpic epic.id p.2.markdown)
    ∧ ∀ p ∈ (runAttachmentPhase cfg env issue.attachments).1,
        Call.createEpicNote cfg.projectGitLabEpic epic.id p.2.markdown
          ∈ (ConvertJiraIssueToGitLabEpic cfg env upd issue).2 := by
  obtain ⟨labels, description, startDate, h1, h2, h3, h4, h5, h6, h7, htrace⟩ :=
    convert_ok_decomp cfg env upd issue epic h
  refine ⟨runOrphanPhase_calls cfg env epic _, ?_⟩
  intro p hp
  rw [htrace]
  apply List.mem_append_left
  apply List.mem_cons_of_mem
  apply List.mem_append_right
  rw [runOrphanPhase_calls]
  exact List.mem_map_of_mem _ hp

/-- Witness for C3: the concrete one-attachment run. -/
theorem c3_every_relocated_attachment_posted_as_orphan_witness :
    (ConvertJiraIssueToGitLabEpic exCfg exEnv none c1Issue).1 = .ok exEpic
    ∧ ((runOrphanPhase exCfg exEnv exEpic (runAttachmentPhase exCfg exEnv c1Issue.attachments).1).1
        = (runAttachmentPhase exCfg exEnv c1Issue.attachments).1.map
            (fun p => Call.createEpicNote exCfg.projectGitLabEpic exEpic.id p.2.markdown)
      ∧ ∀ p ∈ (runAttachmentPhase exCfg exEnv c1Issue.attachments).1,
          Call.createEpicNote exCfg.projectGitLabEpic exEpic.id p.2.markdown
            ∈ (ConvertJiraIssueToGitLabEpic exCfg exEnv none c1Issue).2) :=
  ⟨rfl,
   c3_every_relocated_attachment_posted_as_orphan exCfg exEnv none c1Issue exEpic rfl⟩

/-- C4: if any attachment-relocation task returns an error (a failing upload
is the only way a task can return one), the conversion returns an error and
the trace is empty: in particular no epic-creation call was issued. -/
theorem c4_relocation_failure_aborts_conversion (cfg : Config) (env : Env)
    (upd : Option String) (issue : JiraIssue) (a : JiraAttachment) (e : String)
    (ha : a ∈ issue.attachments) (he : env.convertAttachment a.id = .error e) :
    (∃ msg, (ConvertJiraIssueToGitLabEpic cfg env upd issue).1 = .error msg)
    ∧ (ConvertJiraIssueToGitLabEpic cfg env upd issue).2 = [] := by
  have hsome := runAttachmentTasks_error_of_mem cfg env a e he issue.attachments [] ha
  cases h1 : env.convertLabels with
  | error e2 =>
    refine ⟨⟨"Error converting Jira labels to GitLab labels: " ++ e2, ?_⟩, ?_⟩ <;>
      simp [ConvertJiraIssueToGitLabEpic, h1]
  | ok labels =>
    cases h2 : (runAttachmentPhase cfg env issue.attachments).2 with
    | none =>
      unfold runAttachmentPhase at h2
      rw [h2] at hsome
      simp at hsome
    | some e2 =>
      refine ⟨⟨"Error converting Jira attachment to GitLab attachment: " ++ e2, ?_⟩, ?_⟩ <;>
        simp [ConvertJiraIssueToGitLabEpic, h1, h2]

/-- Witness for C4: the failing-upload run. -/
theorem c4_relocation_failure_aborts_conversion_witness :
    (⟨"a1"⟩ : JiraAttachment) ∈ c1Issue.attachments
    ∧ c4Env.convertAttachment "a1" = .error "disk full"
    ∧ ((∃ msg, (ConvertJiraIssueToGitLabEpic exCfg c4Env none c1Issue).1 = .error msg)
       ∧ (ConvertJiraIssueToGitLabEpic exCfg c4Env none c1Issue).2 = []) :=
  ⟨by decide, rfl,
   c4_relocation_failure_aborts_conversion exCfg c4Env none c1Issue ⟨"a1"⟩ "disk full"
     (by decide) rfl⟩

/-- C5: a successfully relocated attachment is stored under its original
identifier with markup ![alt](absoluteURL), where the absolute URL is the
configured host, the staging-project path and the returned relative URL
joined by slashes, in that order. -/
theorem c5_relocated_markup_is_absolute (cfg : Config) (env : Env) (a : JiraAttachment)
    (m : AttachmentMap) (up : Attachment) (alt url : String)
    (h1 : env.convertAttachment a.id = .ok up)
    (h2 : findStringSubmatch up.markdown = some (alt, url)) :
    alistLookup (attachmentTask cfg env a m).1 a.id
      = some { markdown := "![" ++ alt ++ "]("
                 ++ (cfg.gitlabHost ++ "/" ++ cfg.projectGitLabIssue ++ "/" ++ url) ++ ")"
             , name := up.name
             , createdAt := up.createdAt } := by
  simp [attachmentTask, h1, h2, alistLookup_insertAtt_self]

/-- Witness for C5: the concrete upload ![screenshot](uploads/1.png). -/
theorem c5_relocated_markup_is_absolute_witness :
    exEnv.convertAttachment "a1" = .ok exUpload
    ∧ findStringSubmatch exUpload.markdown = some ("screenshot", "uploads/1.png")
    ∧ alistLookup (attachmentTask exCfg exEnv ⟨"a1"⟩ []).1 "a1"
        = some { markdown := "![" ++ "screenshot" ++ "]("
                   ++ (exCfg.gitlabHost ++ "/" ++ exCfg.projectGitLabIssue ++ "/" ++ "uploads/1.png")
                   ++ ")"
               , name := exUpload.name
               , createdAt := exUpload.createdAt } :=
  ⟨rfl, rfl,
   c5_relocated_markup_is_absolute exCfg exEnv ⟨"a1"⟩ [] exUpload "screenshot" "uploads/1.png"
     rfl rfl⟩

/-- C6: a successful conversion of an issue with no attachments and no
comments issues exactly one epic-creation call and no note-creation calls. -/
theorem c6_empty_issue_one_create_no_notes (cfg : Config) (env : Env) (upd : Option String)
    (issue : JiraIssue) (epic : Epic)
    (ha : issue.attachments = []) (hc : issue.comments = [])
    (h : (ConvertJiraIssueToGitLabEpic cfg env upd issue).1 = .ok epic) :
    ((ConvertJiraIssueToGitLabEpic cfg env upd issue).2.filter isCreateEpicCall).length = 1
    ∧ ((ConvertJiraIssueToGitLabEpic cfg env upd issue).2.filter isNoteCall).length = 0 := by
  obtain ⟨labels, description, startDate, h1, h2, h3, h4, h5, h6, h7, htrace⟩ :=
    convert_ok_decomp cfg env upd issue epic h
  rw [htrace]
  have hmap : (runAttachmentPhase cfg env issue.attachments).1 = [] := by
    rw [ha]; rfl
  have hcom : (runCommentPhase cfg env issue epic
      (runAttachmentPhase cfg env issue.attachments).1).1 = [] := by
    unfold runCommentPhase
    rw [hc]
    rfl
  have horph : (runOrphanPhase cfg env epic
      (runAttachmentPhase cfg env issue.attachments).1).1 = [] := by
    rw [hmap]; rfl
  rw [hcom, horph]
  by_cases hres : issue.resolution.isSome <;>
    simp [hres, isCreateEpicCall, isNoteCall, List.filter]

/-- Witness for C6: the run with an empty issue. -/
theorem c6_empty_issue_one_create_no_notes_witness :
    c6Issue.attachments = []
    ∧ c6Issue.comments = []
    ∧ (ConvertJiraIssueToGitLabEpic exCfg exEnv none c6Issue).1 = .ok exEpic
    ∧ (((ConvertJiraIssueToGitLabEpic exCfg exEnv none c6Issue).2.filter isCreateEpicCall).length = 1
      ∧ ((ConvertJiraIssueToGitLabEpic exCfg exEnv none c6Issue).2.filter isNoteCall).length = 0) :=
  ⟨rfl, rfl, rfl,
   c6_empty_issue_one_create_no_notes exCfg exEnv none c6Issue exEpic rfl rfl rfl⟩

/-- C7: with a resolution present a close state-update call on the created
epic is the last call issued, after the orphan phase, and if the remote
update succeeds the epic's final observed state is closed; with no
resolution no state-update call is ever issued. -/
theorem c7_resolution_present_closes_epic (cfg : Config) (env : Env) (upd : Option String)
    (issue : JiraIssue) (epic : Epic)
    (h : (ConvertJiraIssueToGitLabEpic cfg env upd issue).1 = .ok epic) :
    (issue.resolution.isSome = true →
      (ConvertJiraIssueToGitLabEpic cfg env upd issue).2.getLast?
          = some (Call.updateEpic cfg.projectGitLabEpic epic.iid "close")
      ∧ (upd = none →
          finalEpicState upd cfg.projectGitLabEpic epic.iid
            (ConvertJiraIssueToGitLabEpic cfg env upd issue).2 = EpicState.closed))
    ∧ (issue.resolution = none →
        ∀ g i s, Call.updateEpic g i s ∉ (ConvertJiraIssueToGitLabEpic cfg env upd issue).2) := by
  obtain ⟨labels, description, startDate, h1, h2, h3, h4, h5, h6, h7, htrace⟩ :=
    convert_ok_decomp cfg env upd issue epic h
  constructor
  · intro hres
    rw [htrace]
    rw [hres]
    refine ⟨List.getLast?_concat _, ?_⟩
    intro hupd
    simp [finalEpicState, hupd]
  · intro hres g i s hmem
    have htrace2 : (ConvertJiraIssueToGitLabEpic cfg env upd issue).2
        = Call.createEpic cfg.projectGitLabEpic
              (buildCreateEpicOptions env issue labels description startDate)
            :: (runCommentPhase cfg env issue epic (runAttachmentPhase cfg env issue.attachments).1).1
            ++ (runOrphanPhase cfg env epic (runAttachmentPhase cfg env issue.attachments).1).1 := by
      rw [htrace, hres]
      simp
    rw [htrace2] at hmem
    rcases List.mem_cons.mp hmem with heq | hmem2
    · exact absurd heq (by simp)
    · rcases List.mem_append.mp hmem2 with hmem3 | hmem3
      · have hn := runCommentTasks_calls_are_notes cfg env epic
          (runAttachmentPhase cfg env issue.attachments).1 issue.comments _ hmem3
        simp [isNoteCall] at hn
      · rw [runOrphanPhase_calls] at hmem3
        rcases List.mem_map.mp hmem3 with ⟨p, hp, hpe⟩
        exact absurd hpe (by simp)

/-- Witness for C7: the resolved-issue run with a succeeding update call. -/
theorem c7_resolution_present_closes_epic_witness :
    (ConvertJiraIssueToGitLabEpic exCfg exEnv none c7Issue).1 = .ok exEpic
    ∧ ((c7Issue.resolution.isSome = true →
        (ConvertJiraIssueToGitLabEpic exCfg exEnv none c7Issue).2.getLast?
            = some (Call.updateEpic exCfg.projectGitLabEpic exEpic.iid "close")
        ∧ ((none : Option String) = none →
            finalEpicState none exCfg.projectGitLabEpic exEpic.iid
              (ConvertJiraIssueToGitLabEpic exCfg exEnv none c7Issue).2 = EpicState.closed))
      ∧ (c7Issue.resolution = none →
          ∀ g i s, Call.updateEpic g i s ∉ (ConvertJiraIssueToGitLabEpic exCfg exEnv none c7Issue).2)) :=
  ⟨rfl, c7_resolution_present_closes_epic exCfg exEnv none c7Issue exEpic rfl⟩

/-- C8: with the epic-start-date custom field configured, a string value that
fails to parse as 2006-01-02 makes the conversion return an error with an
empty call trace (so before any entity creation), while an absent field or a
non-string value leaves the start-date extraction successfully empty. -/
theorem c8_start_date_fatal_only_on_parse_failure (cfg : Config) (env : Env)
    (upd : Option String) (issue : JiraIssue) (s : String)
    (hfield : cfg.epicStartDate ≠ "") :
    (alistLookup issue.unknowns cfg.epicStartDate = some (UnknownValue.str s) →
      timeParseDateOnly s = none →
      (∃ msg, (ConvertJiraIssueToGitLabEpic cfg env upd issue).1 = .error msg)
      ∧ (ConvertJiraIssueToGitLabEpic cfg env upd issue).2 = [])
    ∧ ((alistLookup issue.unknowns cfg.epicStartDate = none
        ∨ alistLookup issue.unknowns cfg.epicStartDate = some UnknownValue.nonString) →
      convertStartDate cfg issue = .ok none) := by
  constructor
  · intro hl hp
    have hsd : convertStartDate cfg issue = .error ("Error parsing time: " ++ s) := by
      simp [convertStartDate, hfield, hl, hp]
    cases h1 : env.convertLabels with
    | error e2 =>
      refine ⟨⟨"Error converting Jira labels to GitLab labels: " ++ e2, ?_⟩, ?_⟩ <;>
        simp [ConvertJiraIssueToGitLabEpic, h1]
    | ok labels =>
      cases h2 : (runAttachmentPhase cfg env issue.attachments).2 with
      | some e2 =>
        refine ⟨⟨"Error converting Jira attachment to GitLab attachment: " ++ e2, ?_⟩, ?_⟩ <;>
          simp [ConvertJiraIssueToGitLabEpic, h1, h2]
      | none =>
        cases h3 : env.formatDescription (runAttachmentPhase cfg env issue.attachments).1 with
        | error e2 =>
          refine ⟨⟨"Error formatting description: " ++ e2, ?_⟩, ?_⟩ <;>
            simp [ConvertJiraIssueToGitLabEpic, h1, h2, h3]
        | ok description =>
          refine ⟨⟨"Error parsing time: " ++ s, ?_⟩, ?_⟩ <;>
            simp [ConvertJiraIssueToGitLabEpic, h1, h2, h3, hsd]
  · intro hcase
    rcases hcase with hnone | hns
    · simp [convertStartDate, hfield, hnone]
    · simp [convertStartDate, hfield, hns]

/-- Witness for C8: field configured, value "not-a-date" fails to parse and
aborts; the sibling issue with the field absent extracts no start date. -/
theorem c8_start_date_fatal_only_on_parse_failure_witness :
    c8Cfg.epicStartDate ≠ ""
    ∧ ((alistLookup c8Issue.unknowns c8Cfg.epicStartDate
          = some (UnknownValue.str "not-a-date") →
        timeParseDateOnly "not-a-date" = none →
        (∃ msg, (ConvertJiraIssueToGitLabEpic c8Cfg exEnv none c8Issue).1 = .error msg)
        ∧ (ConvertJiraIssueToGitLabEpic c8Cfg exEnv none c8Issue).2 = [])
      ∧ ((alistLookup c8Issue.unknowns c8Cfg.epicStartDate = none
          ∨ alistLookup c8Issue.unknowns c8Cfg.epicStartDate = some UnknownValue.nonString) →
        convertStartDate c8Cfg c8Issue = .ok none))
    ∧ ((alistLookup c8IssueAbsent.unknowns c8Cfg.epicStartDate = none
        ∨ alistLookup c8IssueAbsent.unknowns c8Cfg.epicStartDate = some UnknownValue.nonString) →
      convertStartDate c8Cfg c8IssueAbsent = .ok none) :=
  ⟨by decide,
   c8_start_date_fatal_only_on_parse_failure c8Cfg exEnv none c8Issue "not-a-date" (by decide),
   (c8_start_date_fatal_only_on_parse_failure c8Cfg exEnv none c8IssueAbsent "not-a-date"
     (by decide)).2⟩

/-- C9: a failing final UpdateEpic call changes nothing observable in the
result: the conversion returns the same trace and still hands back the
created epic with a nil error. -/
theorem c9_update_epic_failure_not_fatal (cfg : Config) (env : Env) (issue : JiraIssue)
    (epic : Epic) (e : String)
    (h : (ConvertJiraIssueToGitLabEpic cfg env none issue).1 = .ok epic) :
    ConvertJiraIssueToGitLabEpic cfg env (some e) issue
        = ConvertJiraIssueToGitLabEpic cfg env none issue
    ∧ (ConvertJiraIssueToGitLabEpic cfg env (some e) issue).1 = .ok epic := by
  exact ⟨rfl, h⟩

/-- Witness for C9: the resolved-issue run with a failing update call. -/
theorem c9_update_epic_failure_not_fatal_witness :
    (ConvertJiraIssueToGitLabEpic exCfg exEnv none c7Issue).1 = .ok exEpic
    ∧ (ConvertJiraIssueToGitLabEpic exCfg exEnv (some "503 service unavailable") c7Issue
          = ConvertJiraIssueToGitLabEpic exCfg exEnv none c7Issue
      ∧ (ConvertJiraIssueToGitLabEpic exCfg exEnv (some "503 service unavailable") c7Issue).1
          = .ok exEpic) :=
  ⟨rfl, c9_update_epic_failure_not_fatal exCfg exEnv c7Issue exEpic "503 service unavailable" rfl⟩

/-- C10: once GetJiraClient has returned successfully, the cached client is
returned by every subsequent call, whatever configuration is passed. -/
theorem c10_get_jira_client_cached_ignores_config (env : JiraEnv)
    (cfg1 cfg2 : JiraConfig) (st st' : Option JiraClient) (c : JiraClient)
    (h : GetJiraClient env cfg1 st = .ok (c, st')) :
    st' = some c ∧ GetJiraClient env cfg2 st' = .ok (c, st') := by
  cases st with
  | some c0 =>
    simp only [GetJiraClient, Except.ok.injEq, Prod.mk.injEq] at h
    obtain ⟨hc, hst⟩ := h
    subst hc
    subst hst
    exact ⟨rfl, rfl⟩
  | none =>
    cases hn : env.newClient cfg1 with
    | error e => simp [GetJiraClient, hn] at h
    | ok client =>
      cases hs : env.getSelf client with
      | error e => simp [GetJiraClient, hn, hs] at h
      | ok u =>
        simp only [GetJiraClient, hn, hs, Except.ok.injEq, Prod.mk.injEq] at h
        obtain ⟨hc, hst⟩ := h
        subst hc
        subst hst
        exact ⟨rfl, rfl⟩

/-- Witness for C10: the second call passes a different host and token yet
gets the client cached by the first call. -/
theorem c10_get_jira_client_cached_ignores_config_witness :
    GetJiraClient exJiraEnv ⟨"https://jira.one", "token-one"⟩ none
        = .ok (⟨"https://jira.one"⟩, some ⟨"https://jira.one"⟩)
    ∧ (some (⟨"https://jira.one"⟩ : JiraClient) = some (⟨"https://jira.one"⟩ : JiraClient)
      ∧ GetJiraClient exJiraEnv ⟨"https://jira.two", "token-two"⟩ (some ⟨"https://jira.one"⟩)
          = .ok (⟨"https://jira.one"⟩, some ⟨"https://jira.one"⟩)) :=
  ⟨rfl,
   c10_get_jira_client_cached_ignores_config exJiraEnv
     ⟨"https://jira.one", "token-one"⟩ ⟨"https://jira.two", "token-two"⟩
     none (some ⟨"https://jira.one"⟩) ⟨"https://jira.one"⟩ rfl⟩

end J2Lab
